import Mathlib

/-!
Shallow embedding of `ichk/check.py` from the irods-consistency-check
repository, together with proofs of the specification's claims about it.

The embedding models:
  * the `Status` / `ObjectType` enumerations and the `Result` record;
  * the environment of OS calls (`os.stat`, `open`, hashing) as explicit
    functions, with `errno` outcomes as constructors;
  * Python's `str.replace` (which replaces *all* occurrences);
  * `ObjectChecker` (cached `statinfo`, `exists_on_disk`,
    `compare_filesize`, `compare_checksums`) — `compare_filesize` returns
    either a bare `Status` or a `(Status, info)` pair, exactly like the
    Python source, so that callers that unpack the return value are
    modelled faithfully (unpacking a bare `Status` raises `TypeError`);
  * the top-down walk `ResourceCheck.check_collections` and the bottom-up
    walk of `VaultCheck.run` (with `os.walk` output given as data);
  * the hierarchy resolver `Check.find_leaves` over an (inherently
    acyclic) inductive resource forest.

Uncaught Python exceptions (`raise` on unexpected `OSError`s and the
`TypeError` from unpacking a non-tuple) are modelled with `Except`: an
`.error` value means the run aborts.
-/

namespace Ichk

/-- The `Status` enumeration of `check.py`. -/
inductive Status where
  | OK
  | NOT_EXISTING
  | NOT_REGISTERED
  | FILE_SIZE_MISMATCH
  | CHECKSUM_MISMATCH
  | ACCESS_DENIED
  | NO_CHECKSUM
deriving DecidableEq, Repr

/-- The `ObjectType` enumeration of `check.py`. -/
inductive ObjectType where
  | COLLECTION
  | DATAOBJECT
  | FILE
  | DIRECTORY
deriving DecidableEq, Repr

/-- Observed-values dictionary: keys mapped to string values, where a value
may be Python's `None` (as in the initial checksum info dict). -/
abbrev Observed := List (String × Option String)

/-- The `Result` namedtuple of `check.py`. -/
structure Result where
  obj_type : ObjectType
  obj_path : String
  phy_path : String
  status : Status
  observed_values : Observed
deriving DecidableEq, Repr

/-- An uncaught Python exception aborting the run: a re-`raise`d `OSError`
(unexpected errno) or a `TypeError` (tuple-unpacking a non-tuple). -/
inductive Err where
  | osError
  | typeError
deriving DecidableEq, Repr

/-- Outcome of `os.stat`: success with a size, or an `OSError` with
`errno` `ENOENT`, `EACCES`, or anything else. -/
inductive RawStat where
  | found (st_size : Nat)
  | enoent
  | eacces
  | otherErr
deriving DecidableEq, Repr

/-- Outcome of `open(path, 'rb')` followed by reading the whole file:
the file's bytes, or an `OSError` with `EACCES` or another errno. -/
inductive OpenOut where
  | ok (bytes : List Nat)
  | eacces
  | otherErr
deriving DecidableEq, Repr

/-- The OS / hashing environment the checker runs against.  `md5` gives
`hashlib.md5(..).digest()` of a byte string and `sha256b64` gives
`base64.b64encode(hashlib.sha256(..).digest())`; chunked reading with
`CHUNK_SIZE` is observationally the hash of the whole content. -/
structure Env where
  stat : String → RawStat
  openf : String → OpenOut
  md5 : List Nat → String
  sha256b64 : List Nat → String

/-- Python `s.replace(pat, rep)` on the character list of `s`: scan left
to right, replace each non-overlapping occurrence of `pat`.  The `fuel`
argument makes the recursion structural; every step consumes at least one
character, so `fuel = s.length` always suffices (at fuel `0` the rest of
`s` is necessarily `[]`).  `pat` is nonempty at every call site of the
source: it is `'/' + zone` or a vault path. -/
def pyReplaceAux (pat rep : List Char) : Nat → List Char → List Char
  | _, [] => []
  | 0, s => s
  | fuel + 1, c :: cs =>
    if pat ≠ [] ∧ pat.isPrefixOf (c :: cs) then
      rep ++ pyReplaceAux pat rep fuel (cs.drop (pat.length - 1))
    else
      c :: pyReplaceAux pat rep fuel cs

/-- Python `s.replace(pat, rep)` on strings (replaces all occurrences). -/
def pyReplace (s pat rep : String) : String :=
  ⟨pyReplaceAux pat.data rep.data s.data.length s.data⟩

/-- Python `s.startswith(p)`. -/
def pyStartsWith (s p : String) : Bool :=
  p.data.isPrefixOf s.data

/-- Python `s[n:]` (drop the first `n` code points). -/
def pyDrop (s : String) (n : Nat) : String :=
  ⟨s.data.drop n⟩

/-- The catalog row of one data object replica, as used by
`ObjectChecker`: `DataObject.path`, `DataObject.name`, `DataObject.size`
and `DataObject.checksum` (`none` models SQL NULL / Python `None`). -/
structure DataObjectRow where
  path : String
  name : String
  size : Nat
  checksum : Option String
deriving DecidableEq, Repr

/-- The value cached in `ObjectChecker._statinfo`: either an
`os.stat_result` (its `st_size`) or a `Status` member. -/
inductive StatVal where
  | st (st_size : Nat)
  | status (s : Status)
deriving DecidableEq, Repr

/-- State of `ObjectChecker`: the data object, its paths, and the
`_statinfo` cache (`none` is Python `None`; every cached value is truthy
in Python, so `some` always hits the cache). -/
structure ObjectChecker where
  data_object : DataObjectRow
  obj_path : String
  phy_path : String
  statinfo_cache : Option StatVal
deriving DecidableEq, Repr

/-- Constructor `ObjectChecker.__init__(data_object, phy_path)`. -/
def ObjectChecker.mk0 (dobj : DataObjectRow) (phy : String) : ObjectChecker :=
  ⟨dobj, dobj.path, phy, none⟩

/-- The `statinfo` property: return the cached value if present,
otherwise `os.stat` the physical path, mapping `ENOENT` to
`Status.NOT_EXISTING` and `EACCES` to `Status.ACCESS_DENIED`, re-raising
any other `OSError`.  The returned `Nat` counts the `os.stat` calls
this invocation performed (0 or 1). -/
def statinfo (env : Env) (c : ObjectChecker) :
    Except Err (StatVal × ObjectChecker × Nat) :=
  match c.statinfo_cache with
  | some v => .ok (v, c, 0)
  | none =>
    match env.stat c.phy_path with
    | .found sz => .ok (.st sz, { c with statinfo_cache := some (.st sz) }, 1)
    | .enoent =>
        .ok (.status .NOT_EXISTING,
             { c with statinfo_cache := some (.status .NOT_EXISTING) }, 1)
    | .eacces =>
        .ok (.status .ACCESS_DENIED,
             { c with statinfo_cache := some (.status .ACCESS_DENIED) }, 1)
    | .otherErr => .error .osError

/-- Method `ObjectChecker.exists_on_disk`. -/
def exists_on_disk (env : Env) (c : ObjectChecker) :
    Except Err (Status × ObjectChecker × Nat) := do
  let (v, c1, k) ← statinfo env c
  match v with
  | .status s => .ok (s, c1, k)
  | .st _ => .ok (.OK, c1, k)

/-- Return value of `ObjectChecker.compare_filesize`: the Python method
returns a bare `Status` when `statinfo` is a `Status`, and a
`(Status, info)` tuple otherwise. -/
inductive FsizeRet where
  | bare (s : Status)
  | tup (s : Status) (info : Observed)
deriving DecidableEq, Repr

/-- Method `ObjectChecker.compare_filesize`. -/
def compare_filesize (env : Env) (c : ObjectChecker) :
    Except Err (FsizeRet × ObjectChecker × Nat) := do
  let (v, c1, k) ← statinfo env c
  match v with
  | .status s => .ok (.bare s, c1, k)
  | .st sz =>
    let info : Observed :=
      [("expected_filesize", some (toString c.data_object.size)),
       ("observed_filesize", some (toString sz))]
    if c.data_object.size ≠ sz then
      .ok (.tup .FILE_SIZE_MISMATCH info, c1, k)
    else
      .ok (.tup .OK info, c1, k)

/-- The info dict `{'expected_checksum': None, 'observed_checksum': None}`. -/
def noneChecksumInfo : Observed :=
  [("expected_checksum", none), ("observed_checksum", none)]

/-- Method `ObjectChecker.compare_checksums`.  The returned `Nat` counts digest
computations attempted (openings of the physical file); Python truthiness
of the catalog checksum (`if not irods_checksum`) covers both `None` and
the empty string. -/
def compare_checksums (env : Env) (c : ObjectChecker) :
    Except Err ((Status × Observed) × Nat) :=
  match c.data_object.checksum with
  | none => .ok ((.NO_CHECKSUM, noneChecksumInfo), 0)
  | some s =>
    if s = "" then .ok ((.NO_CHECKSUM, noneChecksumInfo), 0)
    else
      match env.openf c.phy_path with
      | .eacces => .ok ((.ACCESS_DENIED, noneChecksumInfo), 1)
      | .otherErr => .error .osError
      | .ok bytes =>
        let stripped := if pyStartsWith s "sha2:" then pyDrop s 5 else s
        let phy_checksum :=
          if pyStartsWith s "sha2:" then env.sha256b64 bytes else env.md5 bytes
        let info : Observed :=
          [("expected_checksum", some stripped),
           ("observed_checksum", some phy_checksum)]
        if phy_checksum ≠ stripped then
          .ok ((.CHECKSUM_MISMATCH, info), 1)
        else
          .ok ((.OK, info), 1)

/-- The status/observed-values accumulation of the per-data-object probe
in `ResourceCheck.check_collections` (lines 354–363): build an
`ObjectChecker`, run `exists_on_disk`, then — only on `OK` — unpack
`compare_filesize` (a bare `Status` return would raise `TypeError`),
then — only on `OK` — unpack `compare_checksums`, accumulating
`observed_values` by `dict.update`.  Also returns the number of
`os.stat` calls and the number of digest computations (file
openings). -/
def probeObjectStatus (env : Env) (dobj : DataObjectRow) (phy_path : String) :
    Except Err ((Status × Observed) × Nat × Nat) := do
  let c0 := ObjectChecker.mk0 dobj phy_path
  let (s1, c1, k1) ← exists_on_disk env c0
  if s1 = .OK then
    let (fr, c2, k2) ← compare_filesize env c1
    match fr with
    | .bare _ => .error .typeError
    | .tup s2 info =>
      if s2 = .OK then
        let ((s3, info2), opens) ← compare_checksums env c2
        .ok ((s3, info ++ info2), k1 + k2, opens)
      else
        .ok ((s2, info), k1 + k2, 0)
  else
    .ok ((s1, []), k1, 0)

/-- The per-data-object probe of `ResourceCheck.check_collections`
(lines 354–365): the accumulated status and observed values packed into
the single `Result(ObjectType.DATAOBJECT, ...)` of line 365. -/
def probeDataObject (env : Env) (dobj : DataObjectRow)
    (obj_path phy_path : String) : Except Err (Result × Nat × Nat) := do
  let ((s, obs), k, opens) ← probeObjectStatus env dobj phy_path
  .ok (⟨.DATAOBJECT, obj_path, phy_path, s, obs⟩, k, opens)

/-- The free function `on_disk(path)` of `check.py`: directory existence
via `os.stat`, re-raising unexpected `OSError`s. -/
def on_disk (env : Env) (path : String) : Except Err Status :=
  match env.stat path with
  | .found _ => .ok .OK
  | .enoent => .ok .NOT_EXISTING
  | .eacces => .ok .ACCESS_DENIED
  | .otherErr => .error .osError

/-- A catalog collection row: `Collection.id` and `Collection.name`. -/
structure CollRow where
  id : Nat
  name : String
deriving DecidableEq, Repr

/-- The catalog as seen by the top-down walk: per collection id, the
data objects on the active resource hierarchy
(`data_objects_in_collection`); the collections themselves
(`collections_in_root`) are passed to `check_collections` as a list. -/
structure Catalog where
  dataObjects : Nat → List DataObjectRow

/-- The data-object loop of `check_collections` for one collection that
exists on disk (lines 349–366): probe each object, emitting its
`Result`. -/
def probeObjects (env : Env) (collName : String) :
    List DataObjectRow → Except Err (List Result)
  | [] => .ok []
  | d :: ds => do
    let (r, _, _) ← probeDataObject env d (collName ++ "/" ++ d.name) d.path
    let rest ← probeObjects env collName ds
    .ok (r :: rest)

/-- The body of `ResourceCheck.check_collections` for one collection:
compute the physical path by `coll_name.replace('/' + zone, vault)`,
check it with `on_disk`, emit the collection `Result`, and — only when
the status is `OK` — probe the collection's data objects. -/
def checkOneCollection (env : Env) (cat : Catalog) (zone vault : String)
    (coll : CollRow) : Except Err (List Result) := do
  let coll_path := pyReplace coll.name ("/" ++ zone) vault
  let status_on_disk ← on_disk env coll_path
  let collRes : Result := ⟨.COLLECTION, coll.name, coll_path, status_on_disk, []⟩
  if status_on_disk ≠ .OK then
    .ok [collRes]
  else do
    let objRes ← probeObjects env coll.name (cat.dataObjects coll.id)
    .ok (collRes :: objRes)

/-- Loop of `ResourceCheck.check_collections`: iterate over the catalog's
collections, emitting each collection's `Result`s in order. -/
def check_collections (env : Env) (cat : Catalog) (zone vault : String) :
    List CollRow → Except Err (List Result)
  | [] => .ok []
  | coll :: rest => do
    let rs ← checkOneCollection env cat zone vault coll
    let more ← check_collections env cat zone vault rest
    .ok (rs ++ more)

/-- The catalog as seen by the bottom-up walk: `get_collection`'s query
(`Collection.name == coll_name` on the storage resource, yielding the
collection's name) and `get_data_object`'s query (`DataObject.path ==
phy_path` and `DataObject.resc_hier == hiera`, `.first()`, yielding the
data-object row together with `Collection.name`). -/
structure VaultCatalog where
  lookupColl : String → Option String
  lookupDObj : String → Option (DataObjectRow × String)

/-- Method `VaultCheck.get_collection`: translate the physical path with
`phy_path.replace(vault_path, '/' + zone)` and look the collection up;
absent means `NOT_REGISTERED`. -/
def get_collection (vcat : VaultCatalog) (vault zone : String)
    (phy_path : String) : Option String × Status :=
  let coll_name := pyReplace phy_path vault ("/" ++ zone)
  match vcat.lookupColl coll_name with
  | some cname => (some cname, .OK)
  | none => (none, .NOT_REGISTERED)

/-- The subdirectory branch of `VaultCheck.run` (lines 404–414): emit a
`DIRECTORY` result, logical path `UNKNOWN` when unregistered. -/
def vaultDirResult (vcat : VaultCatalog) (vault zone : String)
    (phy_path : String) : Result :=
  match get_collection vcat vault zone phy_path with
  | (some cname, status) => ⟨.DIRECTORY, cname, phy_path, status, []⟩
  | (none, status) => ⟨.DIRECTORY, "UNKNOWN", phy_path, status, []⟩

/-- The file branch of `VaultCheck.run` (lines 416–443): look the data
object up by physical path; unregistered files get logical path
`UNKNOWN` and empty observed values; registered files are checked with
`compare_filesize` (whose return value is tuple-unpacked — a bare
`Status` return raises `TypeError`) and then `compare_checksums`. -/
def vaultFileResult (env : Env) (vcat : VaultCatalog)
    (phy_path : String) : Except Err Result := do
  match vcat.lookupDObj phy_path with
  | none => .ok ⟨.FILE, "UNKNOWN", phy_path, .NOT_REGISTERED, []⟩
  | some (dobj, collName) =>
    let c0 := ObjectChecker.mk0 dobj phy_path
    let (fr, c1, _) ← compare_filesize env c0
    match fr with
    | .bare _ => .error .typeError
    | .tup s info =>
      let obj_path := collName ++ "/" ++ dobj.name
      if s = .OK then
        let ((s2, info2), _) ← compare_checksums env c1
        .ok ⟨.FILE, obj_path, phy_path, s2, info ++ info2⟩
      else
        .ok ⟨.FILE, obj_path, phy_path, s, info⟩

/-- One `os.walk` triple: `(dirname, subdirs, filenames)`. -/
abbrev WalkEntry := String × List String × List String

/-- The `os.walk` loop of `VaultCheck.run` (lines 402–443), with the
walk's output given as data: for each triple, emit a `DIRECTORY` result
per subdirectory and a `FILE` result per file (`os.path.join` modelled
as `dirname ++ "/" ++ name`). -/
def vaultRun (env : Env) (vcat : VaultCatalog) (vault zone : String) :
    List WalkEntry → Except Err (List Result)
  | [] => .ok []
  | (dirname, subdirs, filenames) :: rest => do
    let dirRs := subdirs.map
      (fun sd => vaultDirResult vcat vault zone (dirname ++ "/" ++ sd))
    let fileRs ← fileResults env vcat dirname filenames
    let more ← vaultRun env vcat vault zone rest
    .ok (dirRs ++ fileRs ++ more)
where
  /-- The inner `for filename in filenames` loop. -/
  fileResults (env : Env) (vcat : VaultCatalog) (dirname : String) :
      List String → Except Err (List Result)
    | [] => .ok []
    | fn :: fns => do
      let r ← vaultFileResult env vcat (dirname ++ "/" ++ fn)
      let rest ← fileResults env vcat dirname fns
      .ok (r :: rest)

/-- A resource node of the location hierarchy: `Resource.name`,
`Resource.location` (host), `Resource.vault_path`, and its child
resources.  The inductive structure makes the forest acyclic by
construction; the catalog lookup `get_resource(child_name)` of the
source is resolved by the subtree itself. -/
inductive RTree where
  | node (name : String) (location : String) (vault : String)
      (children : List RTree)

/-- Name of the root of a resource subtree. -/
def RTree.name : RTree → String
  | .node n _ _ _ => n

/-- Size of a resource subtree (number of nodes), for termination. -/
def RTree.size : RTree → Nat
  | .node _ _ _ cs => 1 + sizeList cs
where
  sizeList : List RTree → Nat
    | [] => 0
    | t :: ts => t.size + sizeList ts

/-- Total size of a `find_leaves` work queue. -/
def queueSize (q : List (RTree × List String)) : Nat :=
  (q.map (fun p => p.1.size)).sum

theorem sizeList_eq_sum (ts : List RTree) :
    RTree.size.sizeList ts = (ts.map RTree.size).sum := by
  induction ts with
  | nil => rfl
  | cons t ts ih => simp [RTree.size.sizeList, ih]

/-- The work-queue loop of `Check.find_leaves` (lines 237–265): pop the
front; a node with children enqueues each child (at the back) with the
ancestor chain extended by the node's own name; a childless node whose
`location` matches the fqdn is yielded with `hiera = ancestors + [name]`;
other childless nodes are only logged.  Returns the names of all popped
(visited) nodes in pop order, and the yielded `(leaf name, hiera)` pairs
in yield order. -/
def findLeavesAux (fqdn : String) :
    List (RTree × List String) → List String × List (String × List String)
  | [] => ([], [])
  | (RTree.node n loc _ cs, ancestors) :: rest =>
    let tail := findLeavesAux fqdn
      (rest ++ cs.map (fun c => (c, ancestors ++ [n])))
    if cs.isEmpty ∧ loc = fqdn then
      (n :: tail.1, (n, ancestors ++ [n]) :: tail.2)
    else
      (n :: tail.1, tail.2)
termination_by q => queueSize q
decreasing_by
  simp only [queueSize, List.map_append, List.sum_append, List.map_cons,
    List.sum_cons, List.map_map]
  have h : ((fun p : RTree × List String => p.1.size) ∘
      fun c => (c, ancestors ++ [n])) = RTree.size := rfl
  rw [h]
  simp only [RTree.size, sizeList_eq_sum]
  omega

/-- Method `Check.find_leaves(resource, ancestors)`. -/
def find_leaves (fqdn : String) (resource : RTree) (ancestors : List String) :
    List String × List (String × List String) :=
  findLeavesAux fqdn [(resource, ancestors)]

mutual

/-- All node names of a resource subtree, in depth-first order (the
reference enumeration the breadth-first visit is compared against). -/
def RTree.nodes : RTree → List String
  | .node n _ _ cs => n :: nodesList cs

/-- Extension of `RTree.nodes` to a list of subtrees. -/
def nodesList : List RTree → List String
  | [] => []
  | t :: ts => t.nodes ++ nodesList ts

end

mutual

/-- The specification's characterisation of the leaves `find_leaves`
must yield: the childless nodes of the subtree whose host identity
equals the local audit host, each paired with the root-first chain of
its ancestors followed by its own name; non-local childless nodes are
skipped. -/
def specLocalLeaves (fqdn : String) :
    RTree → List String → List (String × List String)
  | .node n loc _ [], ancestors =>
    if loc = fqdn then [(n, ancestors ++ [n])] else []
  | .node n _ _ (c :: cs), ancestors =>
    specLocalLeavesList fqdn (c :: cs) (ancestors ++ [n])

/-- Extension of `specLocalLeaves` to a list of subtrees sharing an ancestor
chain. -/
def specLocalLeavesList (fqdn : String) :
    List RTree → List String → List (String × List String)
  | [], _ => []
  | t :: ts, ancestors =>
    specLocalLeaves fqdn t ancestors ++ specLocalLeavesList fqdn ts ancestors

end

theorem nodesList_eq_flatten (ts : List RTree) :
    nodesList ts = (ts.map RTree.nodes).flatten := by
  induction ts with
  | nil => rfl
  | cons t ts ih => simp [nodesList, ih]

theorem specLocalLeavesList_eq_flatten (fqdn : String) (ts : List RTree)
    (ancestors : List String) :
    specLocalLeavesList fqdn ts ancestors =
      (ts.map (fun t => specLocalLeaves fqdn t ancestors)).flatten := by
  induction ts with
  | nil => rfl
  | cons t ts ih => simp [specLocalLeavesList, ih]

/-- The queue invariant behind `find_leaves`: the visited names are a
permutation of the nodes of all queued subtrees, and the yielded pairs
are a permutation of the queued subtrees' local leaves. -/
theorem findLeavesAux_perm (fqdn : String)
    (q : List (RTree × List String)) :
    (findLeavesAux fqdn q).1.Perm
        ((q.map (fun p => p.1.nodes)).flatten) ∧
    (findLeavesAux fqdn q).2.Perm
        ((q.map (fun p => specLocalLeaves fqdn p.1 p.2)).flatten) := by
  have hcomp : ∀ anc : List String,
      ((fun p : RTree × List String => p.1.nodes) ∘
        fun c => (c, anc)) = RTree.nodes := fun _ => rfl
  have hcomp2 : ∀ anc : List String,
      ((fun p : RTree × List String => specLocalLeaves fqdn p.1 p.2) ∘
        fun c => (c, anc)) =
        fun c => specLocalLeaves fqdn c anc := fun _ => rfl
  induction q using findLeavesAux.induct fqdn with
  | case1 => simp [findLeavesAux]
  | case2 n loc v cs ancestors rest h ih =>
    obtain ⟨hcs, hloc⟩ := h
    have hnil : cs = [] := List.isEmpty_iff.mp hcs
    subst hnil
    have hcond : (([] : List RTree).isEmpty ∧ loc = fqdn) := by simp [hloc]
    rw [findLeavesAux, if_pos hcond]
    simp only [List.map_nil, List.append_nil, List.map_cons,
      List.flatten_cons] at ih ⊢
    constructor
    · simpa [RTree.nodes, nodesList] using ih.1.cons n
    · simpa [specLocalLeaves, hloc] using ih.2.cons (n, ancestors ++ [n])
  | case3 n loc v cs ancestors rest h ih =>
    rw [findLeavesAux]
    rw [if_neg (by exact_mod_cast h)]
    simp only [List.map_append, List.flatten_append, List.map_map,
      List.map_cons, List.flatten_cons, hcomp, hcomp2] at ih ⊢
    constructor
    · simp only [RTree.nodes, nodesList_eq_flatten, List.cons_append]
      exact (ih.1.trans List.perm_append_comm).cons n
    · match cs, h with
      | [], h =>
        have hloc : ¬ loc = fqdn := by simpa using h
        simpa [specLocalLeaves, if_neg hloc] using ih.2
      | c :: cs, _ =>
        simp only [specLocalLeaves, specLocalLeavesList_eq_flatten]
        exact ih.2.trans List.perm_append_comm

/-- Modelled from the spec's words (claims C8): the expected physical
path of a collection is "its logical path with the zone's logical prefix
('/' + zone name) substituted by the active physical root" — i.e. the
leading occurrence replaced.  To be compared with the source's
`coll_name.replace('/' + zone, vault)`, which replaces every
occurrence. -/
def specSubstPfx (collName zone vault : String) : String :=
  if pyStartsWith collName ("/" ++ zone) then
    vault ++ pyDrop collName ("/" ++ zone).data.length
  else collName

/-- The status `exists_on_disk` derives from a (cached) `statinfo`
value. -/
def statusOfStatVal : StatVal → Status
  | .status s => s
  | .st _ => .OK

/-- The return value `compare_filesize` derives from a (cached)
`statinfo` value. -/
def fsizeOfStatVal (dobj : DataObjectRow) : StatVal → FsizeRet
  | .status s => .bare s
  | .st sz =>
    if dobj.size ≠ sz then
      .tup .FILE_SIZE_MISMATCH
        [("expected_filesize", some (toString dobj.size)),
         ("observed_filesize", some (toString sz))]
    else
      .tup .OK
        [("expected_filesize", some (toString dobj.size)),
         ("observed_filesize", some (toString sz))]

/-! Concrete instances used by witnesses and counterexamples. -/

/-- A file of size 100 whose base64 sha256 digest is `AAAA==`. -/
def envOkSha : Env :=
  ⟨fun _ => .found 100, fun _ => .ok [1], fun _ => "md5raw",
   fun _ => "AAAA=="⟩

/-- A file of size 50 (content never readable). -/
def envSize50 : Env :=
  ⟨fun _ => .found 50, fun _ => .otherErr, fun _ => "", fun _ => ""⟩

/-- A file of size 100 (content never readable). -/
def envSize100 : Env :=
  ⟨fun _ => .found 100, fun _ => .otherErr, fun _ => "", fun _ => ""⟩

/-- No file on disk at any path. -/
def envNoFile : Env :=
  ⟨fun _ => .enoent, fun _ => .otherErr, fun _ => "", fun _ => ""⟩

/-- Every stat is denied with `EACCES`. -/
def envEacces : Env :=
  ⟨fun _ => .eacces, fun _ => .otherErr, fun _ => "", fun _ => ""⟩

/-- Catalog row: size 100, sha256 checksum `sha2:AAAA==`. -/
def dobjSha : DataObjectRow :=
  ⟨"/v/c1/file.txt", "file.txt", 100, some "sha2:AAAA=="⟩

/-- Catalog row: size 100, no checksum recorded. -/
def dobjNoCk : DataObjectRow :=
  ⟨"/v/c1/plain.txt", "plain.txt", 100, none⟩

/-- The checker state after the first `statinfo` call against
`envSize100`. -/
def chkC9 : ObjectChecker :=
  ⟨dobjNoCk, dobjNoCk.path, "/v/c1/plain.txt", some (.st 100)⟩

/-- A catalog with no data objects in any collection. -/
def catEmpty : Catalog := ⟨fun _ => []⟩

section ClaimTheorems

/-- Claim C1, as stated, is false on the code: on a fully matching data
object the probe's `Result` has status `OK` but `observed_values` holds
the expected/observed filesize and checksum entries — it is not empty.
Concrete input: catalog size 100 and checksum `sha2:AAAA==`, an on-disk
file of size 100 whose base64 sha256 digest is `AAAA==`. -/
theorem claim_C1_counterexample :
    probeDataObject envOkSha dobjSha "/z/c1/file.txt" "/v/c1/file.txt" =
      .ok (⟨.DATAOBJECT, "/z/c1/file.txt", "/v/c1/file.txt", .OK,
        [("expected_filesize", some "100"),
         ("observed_filesize", some "100"),
         ("expected_checksum", some "AAAA=="),
         ("observed_checksum", some "AAAA==")]⟩, 1, 1) ∧
    ([("expected_filesize", some "100"),
      ("observed_filesize", some "100"),
      ("expected_checksum", some "AAAA=="),
      ("observed_checksum", some "AAAA==")] : Observed) ≠ [] :=
  ⟨rfl, by decide⟩

/-- Claim C1 (amended): for every data object whose physical file exists,
whose on-disk size equals the entry's logical size, and whose computed
digest (md5 raw, or sha256 base64 after stripping the catalog's `sha2:`
prefix) equals the catalog's stored digest value, the probe produces a
`Result` with status `OK` whose `observed_values` holds exactly the
expected/observed filesize and checksum entries (amended from "an empty
observed map", which the counterexample refutes). -/
theorem claim_C1_amended (env : Env) (dobj : DataObjectRow) (op pp : String)
    (sz : Nat) (bytes : List Nat) (ck : String)
    (hstat : env.stat pp = .found sz) (hsz : dobj.size = sz)
    (hck : dobj.checksum = some ck) (hne : ck ≠ "")
    (hopen : env.openf pp = .ok bytes)
    (hmatch : (if pyStartsWith ck "sha2:" then env.sha256b64 bytes
               else env.md5 bytes)
            = (if pyStartsWith ck "sha2:" then pyDrop ck 5 else ck)) :
    probeDataObject env dobj op pp =
      .ok (⟨.DATAOBJECT, op, pp, .OK,
        [("expected_filesize", some (toString dobj.size)),
         ("observed_filesize", some (toString sz)),
         ("expected_checksum",
          some (if pyStartsWith ck "sha2:" then pyDrop ck 5 else ck)),
         ("observed_checksum",
          some (if pyStartsWith ck "sha2:" then pyDrop ck 5 else ck))]⟩,
        1, 1) := by
  simp [probeDataObject, probeObjectStatus, ObjectChecker.mk0,
    exists_on_disk, statinfo, compare_filesize, compare_checksums,
    hstat, hsz, hck, hne, hopen, hmatch, Bind.bind, Except.bind]

/-- Witness for C1 (amended) at the concrete matching input. -/
theorem claim_C1_witness :
    probeDataObject envOkSha dobjSha "/z/c1/file.txt" "/v/c1/file.txt" =
      .ok (⟨.DATAOBJECT, "/z/c1/file.txt", "/v/c1/file.txt", .OK,
        [("expected_filesize", some "100"),
         ("observed_filesize", some "100"),
         ("expected_checksum", some "AAAA=="),
         ("observed_checksum", some "AAAA==")]⟩, 1, 1) :=
  claim_C1_amended envOkSha dobjSha "/z/c1/file.txt" "/v/c1/file.txt"
    100 [1] "sha2:AAAA==" rfl rfl rfl (by decide) rfl (by decide)

/-- Claim C3: for every data object whose physical file exists but whose
on-disk size differs from the logical size, the probe returns
`FILE_SIZE_MISMATCH` with the expected and observed sizes in
`observed_values`, and performs no digest computation (the last `0` is
the count of file openings for hashing). -/
theorem claim_C3 (env : Env) (dobj : DataObjectRow) (op pp : String)
    (sz : Nat) (hstat : env.stat pp = .found sz) (hne : dobj.size ≠ sz) :
    probeDataObject env dobj op pp =
      .ok (⟨.DATAOBJECT, op, pp, .FILE_SIZE_MISMATCH,
        [("expected_filesize", some (toString dobj.size)),
         ("observed_filesize", some (toString sz))]⟩, 1, 0) := by
  simp [probeDataObject, probeObjectStatus, ObjectChecker.mk0,
    exists_on_disk, statinfo, compare_filesize, hstat, hne,
    Bind.bind, Except.bind]

/-- Witness for C3: catalog size 100, on-disk size 50 — the spec's own
scenario, `observed = {expectedSize: "100", observedSize: "50"}`. -/
theorem claim_C3_witness :
    probeDataObject envSize50 dobjSha "/z/c1/file.txt" "/v/c1/file.txt" =
      .ok (⟨.DATAOBJECT, "/z/c1/file.txt", "/v/c1/file.txt",
        .FILE_SIZE_MISMATCH,
        [("expected_filesize", some "100"),
         ("observed_filesize", some "50")]⟩, 1, 0) :=
  claim_C3 envSize50 dobjSha "/z/c1/file.txt" "/v/c1/file.txt" 50
    rfl (by decide)

/-- Claim C4: for every data object whose physical file is absent
(`stat` fails with `ENOENT`), the probe returns `NOT_EXISTING`
independently of the catalog's stored size and digest (the data object
row is universally quantified), and performs no digest computation. -/
theorem claim_C4 (env : Env) (dobj : DataObjectRow) (op pp : String)
    (hstat : env.stat pp = .enoent) :
    probeDataObject env dobj op pp =
      .ok (⟨.DATAOBJECT, op, pp, .NOT_EXISTING, []⟩, 1, 0) := by
  simp [probeDataObject, probeObjectStatus, ObjectChecker.mk0,
    exists_on_disk, statinfo, hstat, Bind.bind, Except.bind]

/-- Witness for C4 at a concrete absent file. -/
theorem claim_C4_witness :
    probeDataObject envNoFile dobjSha "/z/c1/file.txt" "/v/c1/file.txt" =
      .ok (⟨.DATAOBJECT, "/z/c1/file.txt", "/v/c1/file.txt",
        .NOT_EXISTING, []⟩, 1, 0) :=
  claim_C4 envNoFile dobjSha "/z/c1/file.txt" "/v/c1/file.txt" rfl

/-- Claim C5: for every data object with no digest recorded in the
catalog, when existence and size both pass, the probe returns
`NO_CHECKSUM` (in particular not `OK` and not `CHECKSUM_MISMATCH`). -/
theorem claim_C5 (env : Env) (dobj : DataObjectRow) (op pp : String)
    (sz : Nat) (hstat : env.stat pp = .found sz) (hsz : dobj.size = sz)
    (hck : dobj.checksum = none) :
    probeDataObject env dobj op pp =
      .ok (⟨.DATAOBJECT, op, pp, .NO_CHECKSUM,
        [("expected_filesize", some (toString dobj.size)),
         ("observed_filesize", some (toString sz))] ++ noneChecksumInfo⟩,
        1, 0) := by
  simp [probeDataObject, probeObjectStatus, ObjectChecker.mk0,
    exists_on_disk, statinfo, compare_filesize, compare_checksums,
    hstat, hsz, hck, Bind.bind, Except.bind]

/-- Witness for C5 at a concrete checksum-less object. -/
theorem claim_C5_witness :
    probeDataObject envSize100 dobjNoCk "/z/c1/plain.txt" "/v/c1/plain.txt" =
      .ok (⟨.DATAOBJECT, "/z/c1/plain.txt", "/v/c1/plain.txt",
        .NO_CHECKSUM,
        [("expected_filesize", some "100"),
         ("observed_filesize", some "100")] ++ noneChecksumInfo⟩, 1, 0) :=
  claim_C5 envSize100 dobjNoCk "/z/c1/plain.txt" "/v/c1/plain.txt" 100
    rfl rfl rfl

/-- Claim C9: within one probe the underlying `os.stat` is performed at
most once.  If the first `statinfo` on a fresh checker returns `(v, c1,
k)`, then `k = 1`, the value `v` is cached in `c1`, and the existence
step and the size step both observe exactly that cached `v` (their
outcomes are `statusOfStatVal v` and `fsizeOfStatVal dobj v`) with zero
further `os.stat` calls — so the two steps can never disagree about
whether the file exists or what size it has. -/
theorem claim_C9 (env : Env) (dobj : DataObjectRow) (pp : String)
    (v : StatVal) (c1 : ObjectChecker) (k : Nat)
    (h : statinfo env (ObjectChecker.mk0 dobj pp) = .ok (v, c1, k)) :
    k = 1 ∧ c1.statinfo_cache = some v ∧
    statinfo env c1 = .ok (v, c1, 0) ∧
    exists_on_disk env (ObjectChecker.mk0 dobj pp) =
      .ok (statusOfStatVal v, c1, 1) ∧
    compare_filesize env c1 = .ok (fsizeOfStatVal dobj v, c1, 0) := by
  rcases hstat : env.stat pp with sz | _ | _ | _ <;>
    simp [statinfo, ObjectChecker.mk0, hstat] at h
  · obtain ⟨hv, hc, hk⟩ := h
    subst hv; subst hk
    simp [statinfo, exists_on_disk, compare_filesize, statusOfStatVal,
      fsizeOfStatVal, ObjectChecker.mk0, hstat, ← hc,
      Bind.bind, Except.bind]
    split <;> rfl
  · obtain ⟨hv, hc, hk⟩ := h
    subst hv; subst hk
    simp [statinfo, exists_on_disk, compare_filesize, statusOfStatVal,
      fsizeOfStatVal, ObjectChecker.mk0, hstat, ← hc,
      Bind.bind, Except.bind]
  · obtain ⟨hv, hc, hk⟩ := h
    subst hv; subst hk
    simp [statinfo, exists_on_disk, compare_filesize, statusOfStatVal,
      fsizeOfStatVal, ObjectChecker.mk0, hstat, ← hc,
      Bind.bind, Except.bind]

/-- Witness for C9 at a concrete existing file of size 100. -/
theorem claim_C9_witness :
    (1 : Nat) = 1 ∧ chkC9.statinfo_cache = some (.st 100) ∧
    statinfo envSize100 chkC9 = .ok (.st 100, chkC9, 0) ∧
    exists_on_disk envSize100 (ObjectChecker.mk0 dobjNoCk "/v/c1/plain.txt") =
      .ok (statusOfStatVal (.st 100), chkC9, 1) ∧
    compare_filesize envSize100 chkC9 =
      .ok (fsizeOfStatVal dobjNoCk (.st 100), chkC9, 0) :=
  claim_C9 envSize100 dobjNoCk "/v/c1/plain.txt" (.st 100) chkC9 1 rfl

end ClaimTheorems

theorem probeDataObject_objtype (env : Env) (d : DataObjectRow)
    (op pp : String) (r : Result) (k o : Nat)
    (h : probeDataObject env d op pp = .ok (r, k, o)) :
    r.obj_type = .DATAOBJECT := by
  cases hs : probeObjectStatus env d pp with
  | error e => simp [probeDataObject, hs, Bind.bind, Except.bind] at h
  | ok val =>
    obtain ⟨⟨s, obs⟩, k0, o0⟩ := val
    simp [probeDataObject, hs, Bind.bind, Except.bind] at h
    obtain ⟨hr, _⟩ := h
    rw [← hr]

theorem probeObjects_objtype (env : Env) (cn : String)
    (ds : List DataObjectRow) (rs : List Result)
    (h : probeObjects env cn ds = .ok rs) :
    ∀ r ∈ rs, r.obj_type = .DATAOBJECT := by
  induction ds generalizing rs with
  | nil =>
    simp [probeObjects] at h
    subst h
    simp
  | cons d ds ih =>
    cases hp : probeDataObject env d (cn ++ "/" ++ d.name) d.path with
    | error e => simp [probeObjects, hp, Bind.bind, Except.bind] at h
    | ok trip =>
      obtain ⟨r0, k0, o0⟩ := trip
      cases hq : probeObjects env cn ds with
      | error e => simp [probeObjects, hp, hq, Bind.bind, Except.bind] at h
      | ok rest =>
        simp [probeObjects, hp, hq, Bind.bind, Except.bind] at h
        intro r hr
        rw [← h] at hr
        rcases List.mem_cons.mp hr with h0 | h1
        · rw [h0]
          exact probeDataObject_objtype env d (cn ++ "/" ++ d.name) d.path
            r0 k0 o0 hp
        · exact ih rest hq r h1

theorem check_collections_append (env : Env) (cat : Catalog)
    (zone vault : String) (l1 l2 : List CollRow) :
    check_collections env cat zone vault (l1 ++ l2) =
      check_collections env cat zone vault l1 >>= fun a =>
      check_collections env cat zone vault l2 >>= fun b => .ok (a ++ b) := by
  induction l1 with
  | nil =>
    cases h : check_collections env cat zone vault l2 <;>
      simp [check_collections, h, Bind.bind, Except.bind]
  | cons c rest ih =>
    cases h1 : checkOneCollection env cat zone vault c with
    | error e => simp [check_collections, h1, Bind.bind, Except.bind]
    | ok rs =>
      cases h2 : check_collections env cat zone vault rest with
      | error e =>
        simp [check_collections, h1, h2, ih, Bind.bind, Except.bind]
      | ok a =>
        cases h3 : check_collections env cat zone vault l2 with
        | error e =>
          simp [check_collections, h1, h2, h3, ih, Bind.bind, Except.bind]
        | ok b =>
          simp [check_collections, h1, h2, h3, ih, Bind.bind, Except.bind]

theorem checkOneCollection_notOK (env : Env) (cat : Catalog)
    (zone vault : String) (c : CollRow) (s : Status)
    (hdisk : on_disk env (pyReplace c.name ("/" ++ zone) vault) = .ok s)
    (hne : s ≠ .OK) :
    checkOneCollection env cat zone vault c =
      .ok [⟨.COLLECTION, c.name, pyReplace c.name ("/" ++ zone) vault,
            s, []⟩] := by
  simp [checkOneCollection, hdisk, hne, Bind.bind, Except.bind]

section ClaimTheoremsWalk

/-- Claim C7: in the top-down run, when a collection's computed
directory is not `OK` on disk (absent or access denied), that
collection contributes exactly its own `Result` — zero `Result`s for
its data objects, which are never probed — and the walk continues with
the remaining collections. -/
theorem claim_C7 (env : Env) (cat : Catalog) (zone vault : String)
    (front back : List CollRow) (c : CollRow) (s : Status)
    (hdisk : on_disk env (pyReplace c.name ("/" ++ zone) vault) = .ok s)
    (hne : s ≠ .OK) :
    check_collections env cat zone vault (front ++ c :: back) =
      check_collections env cat zone vault front >>= fun a =>
      check_collections env cat zone vault back >>= fun b =>
      .ok (a ++ ⟨.COLLECTION, c.name,
            pyReplace c.name ("/" ++ zone) vault, s, []⟩ :: b) := by
  have hone := checkOneCollection_notOK env cat zone vault c s hdisk hne
  rw [check_collections_append]
  cases ha : check_collections env cat zone vault front with
  | error e => simp [Bind.bind, Except.bind]
  | ok a =>
    cases hb : check_collections env cat zone vault back with
    | error e => simp [check_collections, hone, hb, Bind.bind, Except.bind]
    | ok b => simp [check_collections, hone, hb, Bind.bind, Except.bind]

/-- Witness for C7: a two-collection catalog where the first collection
is absent on disk; the second is still processed. -/
theorem claim_C7_witness :
    check_collections envNoFile catEmpty "z" "/v" ([] ++ ⟨1, "/z/a"⟩ :: [⟨2, "/z/b"⟩]) =
      (check_collections envNoFile catEmpty "z" "/v" [] >>= fun a =>
       check_collections envNoFile catEmpty "z" "/v" [⟨2, "/z/b"⟩] >>= fun b =>
       .ok (a ++ ⟨.COLLECTION, "/z/a",
             pyReplace "/z/a" ("/" ++ "z") "/v", .NOT_EXISTING, []⟩ :: b)) :=
  claim_C7 envNoFile catEmpty "z" "/v" [] [⟨2, "/z/b"⟩] ⟨1, "/z/a"⟩
    .NOT_EXISTING rfl (by decide)

/-- Claim C8, as stated, is false on the code: the physical path checked
for a collection is `coll_name.replace('/' + zone, vault)`, which
replaces every occurrence of `'/' + zone`, not only the leading one.
For the collection `/z/a/z` with zone `z` and vault `/v`, the code
checks `/v/a/v`, whereas substituting the zone's logical prefix gives
`/v/a/z`. -/
theorem claim_C8_counterexample :
    check_collections envSize100 catEmpty "z" "/v" [⟨1, "/z/a/z"⟩] =
      .ok [⟨.COLLECTION, "/z/a/z", "/v/a/v", .OK, []⟩] ∧
    specSubstPfx "/z/a/z" "z" "/v" = "/v/a/z" ∧
    ("/v/a/v" : String) ≠ "/v/a/z" :=
  ⟨rfl, rfl, by decide⟩

/-- Claim C8 (amended): in the top-down run every collection-typed
`Result` carries, as its physical path, its logical path with *every*
occurrence of `'/' + zone` replaced by the active physical root (Python
`str.replace` semantics — equal to prefix substitution whenever the
prefix occurs only once), and its status is one of `OK`, `NOT_EXISTING`
or `ACCESS_DENIED` — never a size or checksum status. -/
theorem claim_C8_amended (env : Env) (cat : Catalog) (zone vault : String)
    (colls : List CollRow) (out : List Result)
    (h : check_collections env cat zone vault colls = .ok out)
    (r : Result) (hr : r ∈ out) (hty : r.obj_type = .COLLECTION) :
    r.phy_path = pyReplace r.obj_path ("/" ++ zone) vault ∧
    (r.status = .OK ∨ r.status = .NOT_EXISTING ∨
     r.status = .ACCESS_DENIED) := by
  induction colls generalizing out with
  | nil =>
    simp [check_collections] at h
    subst h
    simp at hr
  | cons c rest ih =>
    cases h1 : checkOneCollection env cat zone vault c with
    | error e => simp [check_collections, h1, Bind.bind, Except.bind] at h
    | ok rs =>
      cases h2 : check_collections env cat zone vault rest with
      | error e =>
        simp [check_collections, h1, h2, Bind.bind, Except.bind] at h
      | ok more =>
        simp [check_collections, h1, h2, Bind.bind, Except.bind] at h
        rw [← h] at hr
        rcases List.mem_append.mp hr with hin | hin
        case _ =>
          -- r comes from this collection's own block
          rcases hd : env.stat (pyReplace c.name ("/" ++ zone) vault) with
            sz | _ | _ | _ <;>
            simp [checkOneCollection, on_disk, hd, Bind.bind, Except.bind]
              at h1
          · -- directory exists: status OK, then the data objects
            cases hp : probeObjects env c.name (cat.dataObjects c.id) with
            | error e => rw [hp] at h1; simp [Except.bind] at h1
            | ok objRes =>
              rw [hp] at h1
              simp [Except.bind] at h1
              rw [← h1] at hin
              rcases List.mem_cons.mp hin with h0 | h0
              · rw [h0]
                simp
              · have := probeObjects_objtype env c.name
                  (cat.dataObjects c.id) objRes hp r h0
                rw [hty] at this
                exact absurd this (by decide)
          · rw [← h1] at hin
            rcases List.mem_cons.mp hin with h0 | h0
            · rw [h0]
              simp
            · simp at h0
          · rw [← h1] at hin
            rcases List.mem_cons.mp hin with h0 | h0
            · rw [h0]
              simp
            · simp at h0
        case _ => exact ih more h2 hin

/-- Witness for C8 (amended) at a concrete one-collection run. -/
theorem claim_C8_witness :
    (⟨.COLLECTION, "/z/a", "/v/a", .OK, []⟩ : Result).phy_path =
      pyReplace (⟨.COLLECTION, "/z/a", "/v/a", .OK, []⟩ : Result).obj_path
        ("/" ++ "z") "/v" ∧
    ((⟨.COLLECTION, "/z/a", "/v/a", .OK, []⟩ : Result).status = .OK ∨
     (⟨.COLLECTION, "/z/a", "/v/a", .OK, []⟩ : Result).status = .NOT_EXISTING ∨
     (⟨.COLLECTION, "/z/a", "/v/a", .OK, []⟩ : Result).status = .ACCESS_DENIED) :=
  claim_C8_amended envSize100 catEmpty "z" "/v" [⟨1, "/z/a"⟩]
    [⟨.COLLECTION, "/z/a", "/v/a", .OK, []⟩] rfl
    ⟨.COLLECTION, "/z/a", "/v/a", .OK, []⟩ (by decide) rfl

end ClaimTheoremsWalk

/-- In the top-down probe a stat denied with `EACCES` is recorded as an
`ACCESS_DENIED` result and the deeper checks are skipped (no crash):
the conforming half of the permission-fault behaviour. -/
theorem probeDataObject_stat_eacces (env : Env) (dobj : DataObjectRow)
    (op pp : String) (hstat : env.stat pp = .eacces) :
    probeDataObject env dobj op pp =
      .ok (⟨.DATAOBJECT, op, pp, .ACCESS_DENIED, []⟩, 1, 0) := by
  simp [probeDataObject, probeObjectStatus, ObjectChecker.mk0,
    exists_on_disk, statinfo, hstat, Bind.bind, Except.bind]

/-- In the top-down probe an `open` denied with `EACCES` (file statted
fine, size matched, checksum present) is recorded as `ACCESS_DENIED`
with the checksum entries left at `None`: also conforming. -/
theorem probeDataObject_open_eacces (env : Env) (dobj : DataObjectRow)
    (op pp : String) (sz : Nat) (ck : String)
    (hstat : env.stat pp = .found sz) (hsz : dobj.size = sz)
    (hck : dobj.checksum = some ck) (hne : ck ≠ "")
    (hopen : env.openf pp = .eacces) :
    probeDataObject env dobj op pp =
      .ok (⟨.DATAOBJECT, op, pp, .ACCESS_DENIED,
        [("expected_filesize", some (toString dobj.size)),
         ("observed_filesize", some (toString sz))] ++ noneChecksumInfo⟩,
        1, 1) := by
  simp [probeDataObject, probeObjectStatus, ObjectChecker.mk0,
    exists_on_disk, statinfo, compare_filesize, compare_checksums,
    hstat, hsz, hck, hne, hopen, Bind.bind, Except.bind]

/-- A bottom-up catalog that registers every file path (and no
directory). -/
def vcatAll : VaultCatalog := ⟨fun _ => none, fun _ => some (dobjSha, "/z/d")⟩

/-- A bottom-up catalog with nothing registered. -/
def vcatNone : VaultCatalog := ⟨fun _ => none, fun _ => none⟩

section ClaimTheoremsVault

/-- Claim C2 fails on the code: in the bottom-up run, a registered file
whose `os.stat` is denied with `EACCES` makes `compare_filesize` return
a bare `Status` (not a `(status, info)` tuple), and `VaultCheck.run`'s
tuple unpacking of that return value raises `TypeError` — the run
aborts instead of recording an `ACCESS_DENIED` result and continuing.
This theorem evaluates the embedded bottom-up run at that failing
input. -/
theorem claim_C2_crash_eval :
    vaultRun envEacces vcatAll "/v" "z" [("/v/d", [], ["f.txt"])] =
      .error .typeError := rfl

/-- Membership of the `UNKNOWN` result for an unregistered file in the
output of the inner filename loop of `VaultCheck.run`. -/
theorem fileResults_unknown_mem (env : Env) (vcat : VaultCatalog)
    (dirname : String) (fns : List String) (rs : List Result)
    (h : vaultRun.fileResults env vcat dirname fns = .ok rs)
    (fn : String) (hfn : fn ∈ fns)
    (hlk : vcat.lookupDObj (dirname ++ "/" ++ fn) = none) :
    (⟨.FILE, "UNKNOWN", dirname ++ "/" ++ fn, .NOT_REGISTERED, []⟩ :
      Result) ∈ rs := by
  induction fns generalizing rs with
  | nil => simp at hfn
  | cons f fs ih =>
    cases hv : vaultFileResult env vcat (dirname ++ "/" ++ f) with
    | error e =>
      simp [vaultRun.fileResults, hv, Bind.bind, Except.bind] at h
    | ok r0 =>
      cases hrest : vaultRun.fileResults env vcat dirname fs with
      | error e =>
        simp [vaultRun.fileResults, hv, hrest, Bind.bind, Except.bind] at h
      | ok rest =>
        simp [vaultRun.fileResults, hv, hrest, Bind.bind, Except.bind] at h
        subst h
        rcases List.mem_cons.mp hfn with h0 | h0
        · subst h0
          simp [vaultFileResult, hlk] at hv
          rw [← hv]
          exact List.mem_cons_self _ _
        · exact List.mem_cons_of_mem _ (ih rest hrest h0)

/-- Claim C10: in the bottom-up run, every subdirectory with no matching
catalog collection and every file with no matching catalog data object
is reported with status `NOT_REGISTERED` and the literal logical path
`UNKNOWN`, with an empty observed map. -/
theorem claim_C10 (env : Env) (vcat : VaultCatalog) (vault zone : String)
    (walk : List WalkEntry) (out : List Result)
    (h : vaultRun env vcat vault zone walk = .ok out) :
    (∀ trip ∈ walk, ∀ sd ∈ trip.2.1,
      vcat.lookupColl
        (pyReplace (trip.1 ++ "/" ++ sd) vault ("/" ++ zone)) = none →
      (⟨.DIRECTORY, "UNKNOWN", trip.1 ++ "/" ++ sd, .NOT_REGISTERED, []⟩ :
        Result) ∈ out) ∧
    (∀ trip ∈ walk, ∀ fn ∈ trip.2.2,
      vcat.lookupDObj (trip.1 ++ "/" ++ fn) = none →
      (⟨.FILE, "UNKNOWN", trip.1 ++ "/" ++ fn, .NOT_REGISTERED, []⟩ :
        Result) ∈ out) := by
  induction walk generalizing out with
  | nil =>
    simp [vaultRun] at h
    subst h
    simp
  | cons trip0 rest ih =>
    obtain ⟨dirname, subdirs, files⟩ := trip0
    cases hf : vaultRun.fileResults env vcat dirname files with
    | error e => simp [vaultRun, hf, Bind.bind, Except.bind] at h
    | ok fileRs =>
      cases hm : vaultRun env vcat vault zone rest with
      | error e => simp [vaultRun, hf, hm, Bind.bind, Except.bind] at h
      | ok more =>
        simp only [vaultRun, hf, hm, Bind.bind, Except.bind,
          Except.ok.injEq] at h
        subst h
        have ihm := ih more hm
        constructor
        · intro trip htrip sd hsd hlk
          rcases List.mem_cons.mp htrip with h0 | h0
          · subst h0
            apply List.mem_append_left
            apply List.mem_append_left
            have : vaultDirResult vcat vault zone
                ((dirname, subdirs, files).1 ++ "/" ++ sd) =
                ⟨.DIRECTORY, "UNKNOWN",
                  (dirname, subdirs, files).1 ++ "/" ++ sd,
                  .NOT_REGISTERED, []⟩ := by
              simp [vaultDirResult, get_collection, hlk]
            rw [← this]
            exact List.mem_map_of_mem _ hsd
          · have := ihm.1 trip h0 sd hsd hlk
            exact List.mem_append_right _ this
        · intro trip htrip fn hfn hlk
          rcases List.mem_cons.mp htrip with h0 | h0
          · subst h0
            apply List.mem_append_left
            apply List.mem_append_right
            exact fileResults_unknown_mem env vcat dirname files fileRs hf
              fn hfn hlk
          · have := ihm.2 trip h0 fn hfn hlk
            exact List.mem_append_right _ this

/-- Witness for C10 at a concrete walk with one unregistered directory
and one unregistered file. -/
theorem claim_C10_witness :
    (⟨.DIRECTORY, "UNKNOWN", "/v" ++ "/" ++ "d1", .NOT_REGISTERED, []⟩ :
      Result) ∈
      [(⟨.DIRECTORY, "UNKNOWN", "/v/d1", .NOT_REGISTERED, []⟩ : Result),
       ⟨.FILE, "UNKNOWN", "/v/f1", .NOT_REGISTERED, []⟩] ∧
    (⟨.FILE, "UNKNOWN", "/v" ++ "/" ++ "f1", .NOT_REGISTERED, []⟩ :
      Result) ∈
      [(⟨.DIRECTORY, "UNKNOWN", "/v/d1", .NOT_REGISTERED, []⟩ : Result),
       ⟨.FILE, "UNKNOWN", "/v/f1", .NOT_REGISTERED, []⟩] := by
  have h := claim_C10 envNoFile vcatNone "/v" "z" [("/v", ["d1"], ["f1"])]
    [⟨.DIRECTORY, "UNKNOWN", "/v/d1", .NOT_REGISTERED, []⟩,
     ⟨.FILE, "UNKNOWN", "/v/f1", .NOT_REGISTERED, []⟩] rfl
  exact ⟨h.1 ("/v", ["d1"], ["f1"]) (by simp) "d1" (by simp) rfl,
         h.2 ("/v", ["d1"], ["f1"]) (by simp) "f1" (by simp) rfl⟩

end ClaimTheoremsVault

section ClaimTheoremsHierarchy

/-- Claim C6: `find_leaves` on any resource forest visits every node of
the subtree exactly once (the visited names are a permutation of the
subtree's node list) and yields exactly the childless, locally-hosted
nodes, each exactly once, paired with the root-first chain of its
ancestors followed by its own name (the yields are a permutation of
`specLocalLeaves`, the specification's characterisation); non-local
childless nodes are skipped. -/
theorem claim_C6 (fqdn : String) (t : RTree) (ancestors : List String) :
    (find_leaves fqdn t ancestors).1.Perm t.nodes ∧
    (find_leaves fqdn t ancestors).2.Perm (specLocalLeaves fqdn t ancestors) := by
  have h := findLeavesAux_perm fqdn [(t, ancestors)]
  simpa [find_leaves] using h

end ClaimTheoremsHierarchy

end Ichk
